import Mathlib

/-!
Shallow embedding of the agentic map frontend
(`src/frontend/src/components/MapView.tsx`: the `MapView` / `MapUpdater`
map components and the `HomeClient` session controller, plus the thin
`MapClient.tsx` wrapper).

Conventions of the embedding:
* JSON runtime values that the code inspects dynamically (`typeof x ===
  "number"`, truthiness under `||` / `&&`) are modelled by `JVal`.
  Numbers are rationals; JavaScript `NaN` is not representable (no claim
  depends on it).
* React state is a record `SessionState`; each `useState` hook is one
  field, initialised as in the source.
* An `async` handler is split into its synchronous prefix (run when the
  handler is invoked) and the continuation applied when the `fetch`
  settles; the outcome of the network call is an explicit argument.
* JavaScript `String.prototype.trim` is modelled by `trimJS` over a
  representative set of whitespace code points.
-/

/-- Runtime JSON field value, as the code discriminates them. -/
inductive JVal where
  | num (x : ℚ)
  | null
  | str (s : String)
  | absent
  deriving DecidableEq, Repr

/-- `typeof v === "number"`. -/
def JVal.isNumber : JVal → Bool
  | .num _ => true
  | _ => false

/-- JavaScript truthiness of a field value (`0`, `""`, `null`,
`undefined` are falsy). -/
def JVal.truthy : JVal → Bool
  | .num x => x ≠ 0
  | .null => false
  | .str s => s ≠ ""
  | .absent => false

/-- Model of `String.prototype.trim` whitespace. -/
def jsWhitespace (c : Char) : Bool :=
  c = ' ' || c = '\t' || c = '\n' || c = '\r' || c = '\u000B' || c = '\u000C' || c = ' '

/-- Model of `s.trim()`: strip leading and trailing whitespace. -/
def trimJS (s : String) : String :=
  String.mk (((s.data.dropWhile jsWhitespace).reverse.dropWhile jsWhitespace).reverse)

/-- `ChatMessage.role` values. -/
inductive Role where
  | user
  | agent
  deriving DecidableEq, Repr

/-- `type ChatMessage = { role: "user" | "agent"; text: string }`. -/
structure ChatMessage where
  role : Role
  text : String
  deriving DecidableEq, Repr

/-- `type ModelOption = { id: string; name: string }`. -/
structure ModelOption where
  id : String
  name : String
  deriving DecidableEq, Repr

/-- `type MapCenter = { lat: number; lon: number; label?: string }` as it
arrives from the network: the code only checks `typeof lat === "number"`,
so `lon` (and `lat` before the check) can be any JSON value. -/
structure MapCenter where
  lat : JVal
  lon : JVal
  label : Option String := none
  deriving DecidableEq, Repr

/-- `type Place = { name: string; lat: number | null; lon: number | null;
address?: string }`, with coordinates as runtime JSON values. -/
structure Place where
  name : String
  lat : JVal
  lon : JVal
  address : Option String := none
  deriving DecidableEq, Repr

/-- The `status` state: `"idle" | "thinking" | "error"`. -/
inductive Status where
  | idle
  | thinking
  | error
  deriving DecidableEq, Repr

/-- `type Lang = "tr" | "en"`. -/
inductive Lang where
  | tr
  | en
  deriving DecidableEq, Repr

/-- The three chat strings of `COPY[lang]` used to seed the transcript
(the remaining `Copy` fields are static presentation copy no modelled
behaviour reads). -/
def chatAgent1 : Lang → String
  | .tr => "Merhaba! Sana en iyi mekanları bulabilirim. Nerede arayalım?"
  | .en => "Hi! I can find the best spots for you. Where should we look?"

/-- `COPY[lang].chatUser`. -/
def chatUser : Lang → String
  | .tr => "Kadıköy’de sakin kahveciler."
  | .en => "Quiet coffee places in Kadıköy."

/-- `COPY[lang].chatAgent2`. -/
def chatAgent2 : Lang → String
  | .tr => "Haritada işaretledim. İstersen fiyat aralığı da ekleyebilirim."
  | .en => "I pinned them on the map. Want to add a price range?"

/-- The `HomeClient` React state: one field per `useState` hook. -/
structure SessionState where
  hasInteracted : Bool
  messages : List ChatMessage
  input : String
  modelName : String
  modelOptions : List ModelOption
  modelsLoading : Bool
  modelsError : Option String
  mapCenter : Option MapCenter
  mapPlaces : List Place
  status : Status
  error : Option String
  deriving DecidableEq, Repr

/-- The initial state of `HomeClient` (the `useState` initialisers). -/
def initState : SessionState :=
  { hasInteracted := false
    messages := []
    input := ""
    modelName := "openai/gpt-4o-mini"
    modelOptions := []
    modelsLoading := false
    modelsError := none
    mapCenter := none
    mapPlaces := []
    status := .idle
    error := none }

/-- The parsed body of a successful `POST /agent/map` response:
`{ response?: string, center?: MapCenter, places?: Place[] }`.
`center = none` models an absent or `null` field (both falsy);
`places = none` models a field that is not an array
(`Array.isArray` fails). -/
structure AgentResponse where
  response : Option String
  center : Option MapCenter
  places : Option (List Place)
  deriving DecidableEq, Repr

/-- Why an agent call failed: `httpError` is a non-2xx response whose
body yielded the given optional `detail` string (`none` when the body
was unparseable or had no `detail`); `netError` is a thrown network or
JSON-parse failure, carrying `some m` when the thrown value was an
`Error` with message `m` and `none` when a non-`Error` was thrown. -/
inductive FailCause where
  | httpError (status : Nat) (detail : Option String)
  | netError (msg : Option String)
  deriving DecidableEq, Repr

/-- Outcome of the `POST /agent/map` call. -/
inductive AgentResult where
  | ok (data : AgentResponse)
  | fail (e : FailCause)
  deriving DecidableEq, Repr

/-- The JSON body sent by `handleSubmit`:
`{ prompt, model_name: modelName }`. -/
structure AgentRequest where
  prompt : String
  model_name : String
  deriving DecidableEq, Repr

/-- `data.response || "No response."` (JavaScript `||`: the fallback
also fires on the empty string). -/
def respText (r : Option String) : String :=
  match r with
  | some t => if t = "" then "No response." else t
  | none => "No response."

/-- The error message stored on failure: for non-2xx,
`payload?.detail || Request failed (status)` (empty/absent detail falls
through); for a thrown failure, `err instanceof Error ? err.message :
"Unknown error"`. -/
def errorMessage : FailCause → String
  | .httpError status detail =>
      match detail with
      | some d => if d = "" then "Request failed (" ++ toString status ++ ")" else d
      | none => "Request failed (" ++ toString status ++ ")"
  | .netError msg => msg.getD "Unknown error"

/-- The synchronous prefix of `handleSubmit` (lines up to the `fetch`):
`none` when the trimmed prompt is empty (early `return`), otherwise the
issued prompt together with the state after `setHasInteracted(true)`,
`setInput("")`, `setError(null)`, `setStatus("thinking")` and appending
the user message. -/
def submitIssue (s : SessionState) : Option (String × SessionState) :=
  let prompt := trimJS s.input
  if prompt = "" then none
  else
    some (prompt,
      { s with
          hasInteracted := true
          input := ""
          error := none
          status := .thinking
          messages := s.messages ++ [({ role := .user, text := prompt } : ChatMessage)] })

/-- The `fetch` request body `handleSubmit` issues, when it issues one. -/
def issuedRequest (s : SessionState) : Option AgentRequest :=
  match submitIssue s with
  | none => none
  | some (p, _) => some { prompt := p, model_name := s.modelName }

/-- The success continuation of `handleSubmit`: append the agent
message, conditionally replace `mapCenter` (guard:
`data.center && typeof data.center.lat === "number"`), conditionally
replace `mapPlaces` (guard: `Array.isArray(data.places)`), set status
idle. -/
def applySuccess (data : AgentResponse) (s : SessionState) : SessionState :=
  let s1 := { s with
    messages := s.messages ++ [({ role := .agent, text := respText data.response } : ChatMessage)] }
  let s2 :=
    match data.center with
    | some c => if c.lat.isNumber then { s1 with mapCenter := some c } else s1
    | none => s1
  let s3 :=
    match data.places with
    | some ps => { s2 with mapPlaces := ps }
    | none => s2
  { s3 with status := .idle }

/-- The `catch` block of `handleSubmit`: `setStatus("error")` and store
the message. -/
def applyFailure (e : FailCause) (s : SessionState) : SessionState :=
  { s with status := .error, error := some (errorMessage e) }

/-- Apply the settled agent call to the state. -/
def resolveAgent (r : AgentResult) (s : SessionState) : SessionState :=
  match r with
  | .ok data => applySuccess data s
  | .fail e => applyFailure e s

/-- A whole `handleSubmit` run whose network call settles as `r`,
with no interleaved events. -/
def handleSubmit (r : AgentResult) (s : SessionState) : SessionState :=
  match submitIssue s with
  | none => s
  | some (_, s1) => resolveAgent r s1

/-- The user edits the input field (`setInput` from the `onChange`
handler). -/
def setInput (text : String) (s : SessionState) : SessionState :=
  { s with input := text }

/-- The transcript seeded by the bootstrap effect for a language. -/
def seedMessages (lang : Lang) : List ChatMessage :=
  [ { role := .agent, text := chatAgent1 lang }
  , { role := .user, text := chatUser lang }
  , { role := .agent, text := chatAgent2 lang } ]

/-- The bootstrap `useEffect` over `[t, hasInteracted]`: a no-op once
`hasInteracted`, otherwise `setMessages` with the scripted seed
(wholesale replacement). -/
def seedEffect (lang : Lang) (s : SessionState) : SessionState :=
  if s.hasInteracted then s else { s with messages := seedMessages lang }

/-- Outcome of the `GET /models/openrouter` call: `ok` carries the
body's `data` field (`none` when absent or not an array); `httpError`
is a non-2xx status; `netError` is a thrown network or parse failure
(`some m` when an `Error` with message `m`, `none` for a non-`Error`). -/
inductive ModelsResult where
  | ok (data : Option (List ModelOption))
  | httpError (status : Nat)
  | netError (msg : Option String)
  deriving DecidableEq, Repr

/-- Whether a registry fetch outcome is a failure (enters the `catch`). -/
def ModelsResult.isFailure : ModelsResult → Bool
  | .ok _ => false
  | _ => true

/-- A whole `loadModels` run: `setModelsLoading(true)` and
`setModelsError(null)` run synchronously; every later update is guarded
by the `isMounted` liveness flag. A non-2xx status throws
``Model list failed (status)``; the `catch` stores the error message and
clears the options; success stores the list and defaults the selection
to its first entry when non-empty. -/
def loadModels (isMounted : Bool) (r : ModelsResult) (s : SessionState) : SessionState :=
  let s0 := { s with modelsLoading := true, modelsError := none }
  let s1 :=
    match r with
    | .ok data =>
        if isMounted then
          match data with
          | some opts =>
              let s' := { s0 with modelOptions := opts }
              match opts with
              | o :: _ => { s' with modelName := o.id }
              | [] => s'
          | none => s0
        else s0
    | .httpError status =>
        if isMounted then
          { s0 with modelOptions := []
                    modelsError := some ("Model list failed (" ++ toString status ++ ")") }
        else s0
    | .netError msg =>
        if isMounted then
          { s0 with modelOptions := [], modelsError := some (msg.getD "Model list failed") }
        else s0
  if isMounted then { s1 with modelsLoading := false } else s1

/-- `MapView` line 49-52: the rendered marker sources,
`(places || []).filter(p => typeof p.lat === "number" && typeof p.lon === "number")`. -/
def markers (places : Option (List Place)) : List Place :=
  (places.getD []).filter (fun p => p.lat.isNumber && p.lon.isNumber)

/-- `MapView`'s fallback latitude `41.0082`. -/
def DEFAULT_LAT : ℚ := 41.0082

/-- `MapView`'s fallback longitude `28.9784`. -/
def DEFAULT_LON : ℚ := 28.9784

/-- JavaScript `v || d` for a field value against a numeric default. -/
def jOr (v : JVal) (d : ℚ) : JVal :=
  if v.truthy then v else .num d

/-- `MapView` line 71, the `MapContainer` centre:
`[center?.lat || 41.0082, center?.lon || 28.9784]`. -/
def viewCenter (center : Option MapCenter) : JVal × JVal :=
  match center with
  | some c => (jOr c.lat DEFAULT_LAT, jOr c.lon DEFAULT_LON)
  | none => (.num DEFAULT_LAT, .num DEFAULT_LON)

/-- `MapUpdater` lines 30-38: the view is re-targeted to
`[center.lat, center.lon]` exactly when `center?.lat && center?.lon`
is truthy; otherwise no `setView` call happens. -/
def mapUpdaterView (center : Option MapCenter) : Option (JVal × JVal) :=
  match center with
  | some c => if c.lat.truthy && c.lon.truthy then some (c.lat, c.lon) else none
  | none => none

/-- Spec-side validity of a centre: both `lat` and `lon` present and
numeric (spec §3, `MapCenter`). -/
def centerValid (center : Option MapCenter) : Bool :=
  match center with
  | some c => c.lat.isNumber && c.lon.isNumber
  | none => false

/-- Modelled from the spec (§4.3), for comparison with `viewCenter`:
`viewCenter = center if valid else DEFAULT_CENTER`, an invalid centre
treated wholly as absent. -/
def specViewCenter (center : Option MapCenter) : JVal × JVal :=
  match center with
  | some c => if centerValid (some c) then (c.lat, c.lon)
              else (.num DEFAULT_LAT, .num DEFAULT_LON)
  | none => (.num DEFAULT_LAT, .num DEFAULT_LON)

/-- One marker as rendered on the map: its position, popup title and
optional popup address line. -/
structure RenderedMarker where
  pos : JVal × JVal
  label : String
  address : Option String := none
  deriving DecidableEq, Repr

/-- The synthesized fallback marker of `MapView` lines 95-97. -/
def defaultIstanbulMarker : RenderedMarker :=
  { pos := (.num DEFAULT_LAT, .num DEFAULT_LON), label := "İstanbul merkez", address := none }

/-- `MapView` lines 81-98: render one marker per filtered place, or the
single fallback marker when the filtered list is empty. -/
def renderedMarkers (places : Option (List Place)) : List RenderedMarker :=
  let ms := markers places
  if ms.length > 0 then
    ms.map (fun p => { pos := (p.lat, p.lon), label := p.name, address := p.address })
  else [defaultIstanbulMarker]

/-- Run the synchronous prefix of `handleSubmit`, keeping the state
unchanged when it early-returns. -/
def issueOrSkip (s : SessionState) : SessionState :=
  match submitIssue s with
  | none => s
  | some (_, s1) => s1

/-- The interleaving behind the sequencing claim: call #1 is issued,
call #2 is issued before #1 resolves, #2 resolves first, #1 resolves
last. Each resolution applies its continuation to the then-current
state, exactly as the event loop schedules the two `await`
continuations. -/
def raceRun (p1 p2 : String) (r1 r2 : AgentResult) (s : SessionState) : SessionState :=
  resolveAgent r1 (resolveAgent r2 (issueOrSkip (setInput p2 (issueOrSkip (setInput p1 s)))))

/-- The place `{name:"A", lat:41.05, lon:29.00}` of the spec's filter
example. -/
def placeA : Place :=
  { name := "A", lat := .num 41.05, lon := .num 29.00 }

/-- The place `{name:"B", lat:null, lon:null}` of the spec's filter
example. -/
def placeB : Place :=
  { name := "B", lat := .null, lon := .null }

/-- C5: whenever the prompt is empty after trimming, `handleSubmit`
early-returns: no request is issued and the state — transcript, status,
error, map and input included — is left exactly as it was. -/
theorem submit_empty_prompt_noop (s : SessionState) (r : AgentResult)
    (h : trimJS s.input = "") :
    issuedRequest s = none ∧ handleSubmit r s = s := by
  refine ⟨?_, ?_⟩ <;> simp [issuedRequest, handleSubmit, submitIssue, h]

/-- Witness for `submit_empty_prompt_noop` at the whitespace-only
input `"   "`. -/
theorem submit_empty_prompt_noop_witness :
    issuedRequest (setInput "   " initState) = none ∧
    handleSubmit (.fail (.netError none)) (setInput "   " initState) =
      setInput "   " initState :=
  submit_empty_prompt_noop (setInput "   " initState) (.fail (.netError none)) (by decide)

/-- C3: the marker list is exactly the places whose `lat` and `lon` are
both numeric; on the spec's example `[A, B]` with `B`'s coordinates
`null`, the marker list is exactly `[A]`. -/
theorem markers_exactly_valid_places (ps : List Place) :
    (∀ p : Place, p ∈ markers (some ps) ↔
        p ∈ ps ∧ p.lat.isNumber = true ∧ p.lon.isNumber = true) ∧
    markers (some [placeA, placeB]) = [placeA] := by
  refine ⟨fun p => ?_, rfl⟩
  simp [markers, List.mem_filter, and_assoc]

/-- Witness for `markers_exactly_valid_places`: membership of `A` and
exclusion of `B` follow from the characterization at the example list. -/
theorem markers_exactly_valid_places_witness :
    placeA ∈ markers (some [placeA, placeB]) ∧
    placeB ∉ markers (some [placeA, placeB]) := by
  refine ⟨((markers_exactly_valid_places [placeA, placeB]).1 placeA).mpr
      ⟨List.mem_cons_self placeA [placeB], rfl, rfl⟩, fun hB => ?_⟩
  have hnum := (((markers_exactly_valid_places [placeA, placeB]).1 placeB).mp hB).2.1
  exact absurd hnum (by decide)

/-- C7: the rendered marker list is never empty; whenever the filtered
marker list is empty it is exactly the single synthesized default
marker at the fallback centre; in particular `places = []` renders
exactly the default marker. -/
theorem renderedMarkers_never_empty (places : Option (List Place)) :
    renderedMarkers places ≠ [] ∧
    (markers places = [] → renderedMarkers places = [defaultIstanbulMarker]) ∧
    renderedMarkers (some []) = [defaultIstanbulMarker] := by
  refine ⟨?_, fun hm => by simp [renderedMarkers, hm], rfl⟩
  rcases hm : markers places with _ | ⟨p, ps⟩ <;> simp [renderedMarkers, hm]

/-- Witness for `renderedMarkers_never_empty` at a list whose only
place has `null` coordinates, hence an empty filtered marker list. -/
theorem renderedMarkers_never_empty_witness :
    renderedMarkers (some [placeB]) ≠ [] ∧
    renderedMarkers (some [placeB]) = [defaultIstanbulMarker] :=
  ⟨(renderedMarkers_never_empty (some [placeB])).1,
   (renderedMarkers_never_empty (some [placeB])).2.1 rfl⟩

/-- C1 (amended): a successful submit appends the user message and
exactly one agent message whose text is the `response` field when it is
present and non-empty and the literal `"No response."` when it is
absent **or empty** (JavaScript `||`); `mapCenter` is replaced exactly
when `center` is present with numeric `lat`; `mapPlaces` is replaced
exactly when `places` is an array (the empty array included); the
status ends idle. -/
theorem submit_success_effects (s : SessionState) (data : AgentResponse)
    (h : trimJS s.input ≠ "") :
    (handleSubmit (.ok data) s).messages =
        s.messages ++ [({ role := .user, text := trimJS s.input } : ChatMessage),
                       ({ role := .agent, text := respText data.response } : ChatMessage)] ∧
    (∀ t, data.response = some t → t ≠ "" → respText data.response = t) ∧
    ((data.response = none ∨ data.response = some "") →
        respText data.response = "No response.") ∧
    (∀ c, data.center = some c → c.lat.isNumber = true →
        (handleSubmit (.ok data) s).mapCenter = some c) ∧
    (∀ c, data.center = some c → c.lat.isNumber = false →
        (handleSubmit (.ok data) s).mapCenter = s.mapCenter) ∧
    (data.center = none → (handleSubmit (.ok data) s).mapCenter = s.mapCenter) ∧
    (∀ ps, data.places = some ps → (handleSubmit (.ok data) s).mapPlaces = ps) ∧
    (data.places = none → (handleSubmit (.ok data) s).mapPlaces = s.mapPlaces) ∧
    (handleSubmit (.ok data) s).status = .idle := by
  rcases data with ⟨resp, center, places⟩
  simp only [handleSubmit, submitIssue, if_neg h, resolveAgent, applySuccess]
  rcases center with _ | c <;> rcases places with _ | ps <;>
    rcases resp with _ | t <;>
      simp_all [respText] <;>
        rcases hnum : c.lat.isNumber <;> simp_all

/-- Witness for `submit_success_effects` on a concrete success:
prompt `"hi"`, response text `"ok"`, a numeric-`lat` centre, and the
empty `places` array (which clears the markers). -/
theorem submit_success_effects_witness :
    (handleSubmit
        (.ok { response := some "ok"
               center := some { lat := .num 41, lon := .num 29 }
               places := some [] })
        (setInput "hi" { initState with mapPlaces := [placeA] })).messages =
      [({ role := .user, text := "hi" } : ChatMessage),
       ({ role := .agent, text := "ok" } : ChatMessage)] ∧
    (handleSubmit
        (.ok { response := some "ok"
               center := some { lat := .num 41, lon := .num 29 }
               places := some [] })
        (setInput "hi" { initState with mapPlaces := [placeA] })).mapCenter =
      some { lat := .num 41, lon := .num 29 } ∧
    (handleSubmit
        (.ok { response := some "ok"
               center := some { lat := .num 41, lon := .num 29 }
               places := some [] })
        (setInput "hi" { initState with mapPlaces := [placeA] })).mapPlaces = [] ∧
    (handleSubmit
        (.ok { response := some "ok"
               center := some { lat := .num 41, lon := .num 29 }
               places := some [] })
        (setInput "hi" { initState with mapPlaces := [placeA] })).status = .idle := by
  have h := submit_success_effects
    (setInput "hi" { initState with mapPlaces := [placeA] })
    { response := some "ok"
      center := some { lat := .num 41, lon := .num 29 }
      places := some [] }
    (by decide)
  exact ⟨h.1, h.2.2.2.1 _ rfl rfl, h.2.2.2.2.2.2.1 [] rfl, h.2.2.2.2.2.2.2.2⟩

/-- C1 counterexample: with `response` **present** but equal to the
empty string, the appended agent text is `"No response."`, not the
field's value `""` — the fallback does not fire only on an absent
field. -/
theorem submit_success_empty_response_cex :
    (handleSubmit (.ok { response := some "", center := none, places := none })
        (setInput "hi" initState)).messages =
      [({ role := .user, text := "hi" } : ChatMessage),
       ({ role := .agent, text := "No response." } : ChatMessage)] ∧
    ("No response." : String) ≠ "" :=
  ⟨rfl, by decide⟩

/-- C2 (amended): a failed submit sets status `error` and stores
`errorMessage`; the transcript gains only the user message — every
agent message in the final transcript was already there — and the map
state is untouched. The stored message is the non-empty server `detail`
when available; `"Request failed (status)"` when `detail` is absent or
empty; the thrown error's own message for network or parse failures;
and `"Unknown error"` only when the thrown value was not an `Error`. -/
theorem submit_failure_effects (s : SessionState) (e : FailCause)
    (h : trimJS s.input ≠ "") :
    (handleSubmit (.fail e) s).status = .error ∧
    (handleSubmit (.fail e) s).error = some (errorMessage e) ∧
    (handleSubmit (.fail e) s).messages =
        s.messages ++ [({ role := .user, text := trimJS s.input } : ChatMessage)] ∧
    (∀ m, m ∈ (handleSubmit (.fail e) s).messages → m.role = .agent →
        m ∈ s.messages) ∧
    (handleSubmit (.fail e) s).mapCenter = s.mapCenter ∧
    (handleSubmit (.fail e) s).mapPlaces = s.mapPlaces ∧
    (∀ st d, e = .httpError st (some d) → d ≠ "" → errorMessage e = d) ∧
    (∀ st, e = .httpError st none →
        errorMessage e = "Request failed (" ++ toString st ++ ")") ∧
    (∀ st, e = .httpError st (some "") →
        errorMessage e = "Request failed (" ++ toString st ++ ")") ∧
    (∀ m, e = .netError (some m) → errorMessage e = m) ∧
    (e = .netError none → errorMessage e = "Unknown error") := by
  have hs : handleSubmit (.fail e) s =
      { s with hasInteracted := true, input := "", status := .error,
               error := some (errorMessage e),
               messages := s.messages ++
                 [({ role := .user, text := trimJS s.input } : ChatMessage)] } := by
    simp only [handleSubmit, submitIssue, if_neg h, resolveAgent, applyFailure]
  refine ⟨by rw [hs], by rw [hs], by rw [hs], ?_, by rw [hs], by rw [hs],
    ?_, ?_, ?_, ?_, ?_⟩
  · intro m hm hrole
    rw [hs] at hm
    rcases List.mem_append.mp hm with hold | hnew
    · exact hold
    · simp only [List.mem_singleton] at hnew
      rw [hnew] at hrole
      simp at hrole
  · intro st d he hd
    simp [he, errorMessage, if_neg hd]
  · intro st he; simp [he, errorMessage]
  · intro st he; simp [he, errorMessage]
  · intro m he; simp [he, errorMessage, Option.getD]
  · intro he; simp [he, errorMessage, Option.getD]

/-- Witness for `submit_failure_effects` on a concrete non-2xx failure
with a server detail. -/
theorem submit_failure_effects_witness :
    (handleSubmit (.fail (.httpError 422 (some "bad model")))
        (setInput "hi" initState)).status = .error ∧
    (handleSubmit (.fail (.httpError 422 (some "bad model")))
        (setInput "hi" initState)).error = some "bad model" ∧
    errorMessage (.httpError 422 (some "bad model")) = "bad model" := by
  have h := submit_failure_effects (setInput "hi" initState)
    (.httpError 422 (some "bad model")) (by decide)
  exact ⟨h.1, h.2.1, h.2.2.2.2.2.2.1 422 "bad model" rfl (by decide)⟩

/-- C2 counterexample: a network failure whose thrown `Error` carries
the message `"Failed to fetch"` stores that message — not a generic
unknown-error message — and an empty server `detail`, though present,
is not stored either. -/
theorem submit_failure_message_cex :
    (handleSubmit (.fail (.netError (some "Failed to fetch")))
        (setInput "hi" initState)).error = some "Failed to fetch" ∧
    ("Failed to fetch" : String) ≠ "Unknown error" ∧
    errorMessage (.httpError 500 (some "")) = "Request failed (500)" ∧
    ("Request failed (500)" : String) ≠ "" :=
  ⟨rfl, by decide, rfl, by decide⟩

/-- C10: submit clears the input before issuing the call, and a failed
call does not restore it — the final input is empty — while the map,
model and transcript fields keep the values they had after issuance
(the transcript being the prior one plus the user message). -/
theorem submit_failure_input_not_restored (s : SessionState) (e : FailCause)
    (h : trimJS s.input ≠ "") :
    (∀ p s1, submitIssue s = some (p, s1) → s1.input = "") ∧
    (handleSubmit (.fail e) s).input = "" ∧
    (handleSubmit (.fail e) s).hasInteracted = true ∧
    (handleSubmit (.fail e) s).mapCenter = s.mapCenter ∧
    (handleSubmit (.fail e) s).mapPlaces = s.mapPlaces ∧
    (handleSubmit (.fail e) s).modelName = s.modelName ∧
    (handleSubmit (.fail e) s).modelOptions = s.modelOptions ∧
    (handleSubmit (.fail e) s).modelsError = s.modelsError ∧
    (handleSubmit (.fail e) s).messages =
        s.messages ++ [({ role := .user, text := trimJS s.input } : ChatMessage)] := by
  have hs : handleSubmit (.fail e) s =
      { s with hasInteracted := true, input := "", status := .error,
               error := some (errorMessage e),
               messages := s.messages ++
                 [({ role := .user, text := trimJS s.input } : ChatMessage)] } := by
    simp only [handleSubmit, submitIssue, if_neg h, resolveAgent, applyFailure]
  refine ⟨?_, by rw [hs], by rw [hs], by rw [hs], by rw [hs], by rw [hs],
    by rw [hs], by rw [hs], by rw [hs]⟩
  intro p s1 hps
  simp only [submitIssue, if_neg h, Option.some.injEq, Prod.mk.injEq] at hps
  rw [← hps.2]

/-- Witness for `submit_failure_input_not_restored` at prompt `"hi"`
and a network failure. -/
theorem submit_failure_input_not_restored_witness :
    (handleSubmit (.fail (.netError none)) (setInput "hi" initState)).input = "" ∧
    (handleSubmit (.fail (.netError none)) (setInput "hi" initState)).mapPlaces = [] := by
  have h := submit_failure_input_not_restored (setInput "hi" initState)
    (.netError none) (by decide)
  exact ⟨h.2.1, h.2.2.2.2.1⟩

/-- C4 (amended): the container centre is computed per coordinate by
JavaScript `||` fallback: a coordinate that is truthy (a non-zero
number — or any truthy value) is kept, and one that is falsy (absent,
`null`, `0`, …) is replaced by the corresponding `DEFAULT` coordinate
independently of the other — so an invalid centre can be mixed
component-wise with the default. The `MapUpdater` re-centre fires
exactly when both coordinates are truthy, and then to the supplied
pair. -/
theorem viewCenter_componentwise (c : MapCenter) :
    (centerValid (some c) = true → c.lat ≠ .num 0 → c.lon ≠ .num 0 →
        viewCenter (some c) = (c.lat, c.lon)) ∧
    viewCenter none = (.num DEFAULT_LAT, .num DEFAULT_LON) ∧
    (c.lat.truthy = true → (viewCenter (some c)).1 = c.lat) ∧
    (c.lat.truthy = false → (viewCenter (some c)).1 = .num DEFAULT_LAT) ∧
    (c.lon.truthy = true → (viewCenter (some c)).2 = c.lon) ∧
    (c.lon.truthy = false → (viewCenter (some c)).2 = .num DEFAULT_LON) ∧
    (c.lat.truthy = true → c.lon.truthy = true →
        mapUpdaterView (some c) = some (c.lat, c.lon)) ∧
    (c.lat.truthy = false ∨ c.lon.truthy = false →
        mapUpdaterView (some c) = none) ∧
    mapUpdaterView none = none := by
  rcases c with ⟨la, lo, lb⟩
  refine ⟨?_, rfl, ?_, ?_, ?_, ?_, ?_, ?_, rfl⟩
  · intro hv hla hlo
    rcases la with x | _ | t | _ <;> rcases lo with y | _ | u | _ <;>
      simp_all [centerValid, JVal.isNumber, JVal.truthy, viewCenter, jOr]
  · intro ht; simp [viewCenter, jOr, ht]
  · intro ht; simp [viewCenter, jOr, ht]
  · intro ht; simp [viewCenter, jOr, ht]
  · intro ht; simp [viewCenter, jOr, ht]
  · intro h1 h2; simp [mapUpdaterView, h1, h2]
  · intro hor; rcases hor with h1 | h1 <;> simp [mapUpdaterView, h1]

/-- Witness for `viewCenter_componentwise`: a valid non-zero centre is
kept whole; a `null` longitude falls back to `DEFAULT_LON` while the
latitude is kept; a valid centre re-centres the `MapUpdater`. -/
theorem viewCenter_componentwise_witness :
    viewCenter (some { lat := .num 41, lon := .num 29 }) = (.num 41, .num 29) ∧
    (viewCenter (some { lat := .num 41, lon := .null })).2 = .num DEFAULT_LON ∧
    (viewCenter (some { lat := .num 41, lon := .null })).1 = .num 41 ∧
    mapUpdaterView (some { lat := .num 41, lon := .num 29 }) =
      some (.num 41, .num 29) := by
  have hboth := viewCenter_componentwise { lat := .num 41, lon := .num 29 }
  have hmix := viewCenter_componentwise { lat := .num 41, lon := .null }
  exact ⟨hboth.1 (by decide) (by decide) (by decide),
    hmix.2.2.2.2.2.1 (by decide),
    hmix.2.2.1 (by decide),
    hboth.2.2.2.2.2.2.1 (by decide) (by decide)⟩

/-- C4 counterexample: the centre `{lat: 41.05, lon: null}` is invalid
(`lon` not numeric), so per the claim the view centre would be wholly
`DEFAULT_CENTER`; the code instead keeps the supplied latitude and
mixes it with the default longitude. -/
theorem viewCenter_not_spec_cex :
    centerValid (some { lat := .num 41.05, lon := .null }) = false ∧
    viewCenter (some { lat := .num 41.05, lon := .null }) =
      (.num 41.05, .num DEFAULT_LON) ∧
    specViewCenter (some { lat := .num 41.05, lon := .null }) =
      (.num DEFAULT_LAT, .num DEFAULT_LON) ∧
    viewCenter (some { lat := .num 41.05, lon := .null }) ≠
      specViewCenter (some { lat := .num 41.05, lon := .null }) := by
  have hlat : JVal.truthy (.num 41.05) = true := by
    simp only [JVal.truthy, decide_eq_true_eq]
    norm_num
  have hlon : JVal.truthy .null = false := rfl
  have hv : viewCenter (some { lat := .num 41.05, lon := .null }) =
      (.num 41.05, .num DEFAULT_LON) := by
    simp [viewCenter, jOr, hlat, hlon]
  refine ⟨rfl, hv, rfl, ?_⟩
  rw [hv]
  intro heq
  have h1 := congrArg Prod.fst heq
  simp only [specViewCenter, centerValid, JVal.isNumber, Bool.and_false] at h1
  have : (41.05 : ℚ) = DEFAULT_LAT := by injection h1
  rw [DEFAULT_LAT] at this
  norm_num at this

/-- The bootstrap seeding effect is a no-op once the user has
interacted. -/
theorem seedEffect_of_interacted (lang : Lang) (t : SessionState)
    (h : t.hasInteracted = true) : seedEffect lang t = t := by
  simp [seedEffect, h]

/-- After a non-empty submission, `hasInteracted` holds and the prior
transcript is preserved as a prefix, whatever the call's outcome. -/
theorem handleSubmit_after_issue (r : AgentResult) (t : SessionState)
    (hin : trimJS t.input ≠ "") :
    (handleSubmit r t).hasInteracted = true ∧
    (handleSubmit r t).messages.take t.messages.length = t.messages := by
  rcases r with ⟨⟨resp, center, places⟩⟩ | ⟨e⟩ <;>
    simp only [handleSubmit, submitIssue, if_neg hin, resolveAgent, applySuccess,
      applyFailure] <;>
    refine ⟨?_, ?_⟩ <;>
    (try (repeat' split)) <;>
    simp [List.take_left, List.append_assoc]

/-- C6 (amended): while the user has not interacted, a language change
replaces the transcript wholesale with the new language's seed (no
duplication on toggle); the first real submission sets `hasInteracted`
— after which the seeding effect is a no-op — and **appends** the user
message after the retained seed rather than replacing the seed. -/
theorem seed_transcript_lifecycle (lang lang2 : Lang) (s : SessionState)
    (r : AgentResult) (h : s.hasInteracted = false) :
    (seedEffect lang s).messages = seedMessages lang ∧
    (seedEffect lang2 (seedEffect lang s)).messages = seedMessages lang2 ∧
    (trimJS s.input ≠ "" →
        (handleSubmit r (seedEffect lang s)).hasInteracted = true ∧
        (handleSubmit r (seedEffect lang s)).messages.take 3 = seedMessages lang ∧
        seedEffect lang2 (handleSubmit r (seedEffect lang s)) =
          handleSubmit r (seedEffect lang s)) := by
  have hseed : seedEffect lang s = { s with messages := seedMessages lang } := by
    simp [seedEffect, h]
  refine ⟨by rw [hseed], by rw [hseed]; simp [seedEffect, h], ?_⟩
  intro hin
  have hin' : trimJS (seedEffect lang s).input ≠ "" := by rw [hseed]; exact hin
  have hmain := handleSubmit_after_issue r (seedEffect lang s) hin'
  refine ⟨hmain.1, ?_, seedEffect_of_interacted lang2 _ hmain.1⟩
  have htake := hmain.2
  rw [hseed] at htake
  have hlen : (seedMessages lang).length = 3 := by cases lang <;> rfl
  simp only [hlen] at htake
  rw [hseed]
  exact htake

/-- Witness for `seed_transcript_lifecycle`: toggling the language
before interaction swaps the seed; a real submission keeps the seed as
prefix. -/
theorem seed_transcript_lifecycle_witness :
    (seedEffect .tr (seedEffect .en (setInput "hi" initState))).messages =
      seedMessages .tr ∧
    (handleSubmit (.fail (.netError none))
        (seedEffect .en (setInput "hi" initState))).messages.take 3 =
      seedMessages .en := by
  have h := seed_transcript_lifecycle .en .tr (setInput "hi" initState)
    (.fail (.netError none)) rfl
  exact ⟨h.2.1, (h.2.2 (by decide)).2.1⟩

/-- C6 counterexample: after the user's first real submission the
scripted seed is still the transcript prefix, followed by the appended
user and agent messages — the seed is appended to, not replaced. -/
theorem seed_not_replaced_on_submit_cex :
    (handleSubmit (.ok { response := some "ok", center := none, places := none })
        (seedEffect .en (setInput "hi" initState))).messages =
      seedMessages .en ++
        [({ role := .user, text := "hi" } : ChatMessage),
         ({ role := .agent, text := "ok" } : ChatMessage)] ∧
    seedMessages .en ≠ [] :=
  ⟨rfl, by simp [seedMessages]⟩

/-- C8: when a registry fetch fails and the component is still mounted,
the model options end as the empty list, a non-null error message is
set, loading has ended, and the selected model identifier is unchanged
— a subsequent agent submission still issues with that identifier. -/
theorem loadModels_failure_state (r : ModelsResult) (s : SessionState)
    (h : r.isFailure = true) :
    (loadModels true r s).modelOptions = [] ∧
    (loadModels true r s).modelsError ≠ none ∧
    (loadModels true r s).modelName = s.modelName ∧
    (loadModels true r s).modelsLoading = false ∧
    issuedRequest (setInput "x" (loadModels true r s)) =
      some { prompt := "x", model_name := s.modelName } := by
  rcases r with data | st | m
  · exact absurd h (by simp [ModelsResult.isFailure])
  · exact ⟨rfl, by simp [loadModels], rfl, rfl, rfl⟩
  · exact ⟨rfl, by simp [loadModels], rfl, rfl, rfl⟩

/-- Witness for `loadModels_failure_state` at a 503 registry failure
against the initial state. -/
theorem loadModels_failure_state_witness :
    (loadModels true (.httpError 503) initState).modelOptions = [] ∧
    (loadModels true (.httpError 503) initState).modelsError =
      some "Model list failed (503)" ∧
    (loadModels true (.httpError 503) initState).modelName =
      "openai/gpt-4o-mini" := by
  have h := loadModels_failure_state (.httpError 503) initState rfl
  exact ⟨h.1, rfl, h.2.2.1⟩

/-- C9 (amended): responses are applied in the order the calls
complete, with no staleness guard: when call #1 resolves after call #2,
the final map places are those of the first-issued, last-completed
call #1, and the transcript carries both agent replies in completion
order (#2's before #1's). -/
theorem raceRun_last_completion_wins (p1 p2 : String) (d1 d2 : AgentResponse)
    (qs1 : List Place) (s : SessionState)
    (h1 : trimJS p1 ≠ "") (h2 : trimJS p2 ≠ "")
    (hq : d1.places = some qs1) :
    (raceRun p1 p2 (.ok d1) (.ok d2) s).mapPlaces = qs1 ∧
    (raceRun p1 p2 (.ok d1) (.ok d2) s).messages =
      s.messages ++
        [({ role := .user, text := trimJS p1 } : ChatMessage),
         ({ role := .user, text := trimJS p2 } : ChatMessage),
         ({ role := .agent, text := respText d2.response } : ChatMessage),
         ({ role := .agent, text := respText d1.response } : ChatMessage)] ∧
    (raceRun p1 p2 (.ok d1) (.ok d2) s).status = .idle := by
  rcases d1 with ⟨resp1, center1, places1⟩
  rcases d2 with ⟨resp2, center2, places2⟩
  simp only [Option.some.injEq] at hq
  subst hq
  simp only [raceRun, issueOrSkip, setInput, submitIssue, if_neg h1, if_neg h2,
    resolveAgent, applySuccess]
  refine ⟨?_, ?_, ?_⟩ <;>
    (try (repeat' split)) <;>
    simp [List.append_assoc]

/-- Witness for `raceRun_last_completion_wins` at two concrete
overlapping calls: the stale first call's places win. -/
theorem raceRun_last_completion_wins_witness :
    (raceRun "first" "second"
        (.ok { response := some "one", center := none, places := some [placeA] })
        (.ok { response := some "two", center := none, places := some [] })
        initState).mapPlaces = [placeA] ∧
    (raceRun "first" "second"
        (.ok { response := some "one", center := none, places := some [placeA] })
        (.ok { response := some "two", center := none, places := some [] })
        initState).status = .idle := by
  have h := raceRun_last_completion_wins "first" "second"
    { response := some "one", center := none, places := some [placeA] }
    { response := some "two", center := none, places := some [] }
    [placeA] initState (by decide) (by decide) rfl
  exact ⟨h.1, h.2.2⟩

/-- C9 counterexample: call #1 returns places `[A]`, call #2 — issued
later but completed earlier — returns the empty places array; the
final map places are `[A]`, call #1's stale result, not call #2's. -/
theorem raceRun_stale_clobber_cex :
    (raceRun "first" "second"
        (.ok { response := some "one", center := none, places := some [placeA] })
        (.ok { response := some "two", center := none, places := some [] })
        initState).mapPlaces = [placeA] ∧
    ([placeA] : List Place) ≠ [] :=
  ⟨rfl, by simp⟩
